import Mathlib

/-!
Verification development for the openclaw-graphiti-plugin repository.

The development is a shallow embedding of the plugin code:

* `Graphiti.GraphitiClient` embeds the HTTP client in `client.ts`
  (`fetch`, `search`, `getMemory`, `ingest`, `healthy`, `episodes`).
  HTTP responses are modelled by `HttpResponse`, carrying the status code,
  the raw body text (used for error snippets) and the parsed JSON body,
  per the wire contract of the remote service.  Network failures and
  timeouts for the advisory operations are modelled by `FetchOutcome`.
* The lifecycle hook handlers are embedded as total functions from the
  event payload, the plugin configuration and a description of the remote
  service behaviour (`ServiceBehaviour`) to a result together with the
  list of client calls issued (`TraceResult`).  The `try`/`catch` blocks
  of the handlers are embedded by `catchAll`.
-/

namespace Graphiti

/-- Outbound message shape, interface GraphitiMessage in client.ts. -/
structure GraphitiMessage where
  content : String
  role_type : String
  role : String
  name : Option String := none
  timestamp : Option String := none
  source_description : Option String := none
deriving DecidableEq

/-- Fact shape, interface GraphitiFact in client.ts. -/
structure GraphitiFact where
  uuid : String
  name : String
  fact : String
  valid_at : Option String := none
  invalid_at : Option String := none
  created_at : String := ""
  expired_at : Option String := none
deriving DecidableEq

/-- JavaScript res.ok: the status lies in the 2xx success range. -/
def resOk (status : Nat) : Bool := 200 ≤ status && status < 300

/-- An HTTP response as seen by the client: status code, raw body text
and the body parsed as JSON of the expected shape. -/
structure HttpResponse (β : Type) where
  status : Nat
  text : String
  json : β
deriving DecidableEq

/-- Response body of the search and get-memory endpoints: an envelope
whose facts field may be absent. -/
structure SearchBody where
  facts : Option (List GraphitiFact) := none
deriving DecidableEq

/-- Response body of the messages (ingest) endpoint. -/
structure IngestBody where
  success : Bool
  message : String
deriving DecidableEq

/-- Outcome of a raw network call for the advisory operations: either the
request failed before a response arrived (network error or timeout), or a
response with a status code arrived whose body may or may not parse. -/
inductive FetchOutcome (β : Type) where
  | netError (msg : String)
  | response (status : Nat) (body : Except String β)

namespace GraphitiClient

/-- Embeds GraphitiClient.fetch in client.ts: on a non-2xx status it
throws an Error built from the path, the status and the body text,
otherwise it returns the parsed JSON body. -/
def fetch (path : String) (res : HttpResponse β) : Except String β :=
  if resOk res.status then
    Except.ok res.json
  else
    Except.error ("Graphiti " ++ path ++ " returned " ++ toString res.status ++ ": " ++ res.text)

/-- Embeds GraphitiClient.search: POST to /search, then data.facts or
the empty list when the field is absent. -/
def search (query : String) (maxFacts : Nat) (res : HttpResponse SearchBody) :
    Except String (List GraphitiFact) :=
  (fetch "/search" res).map (fun data => data.facts.getD [])

/-- Embeds GraphitiClient.getMemory: POST to /get-memory, same
normalization as search. -/
def getMemory (messages : List GraphitiMessage) (maxFacts : Nat) (res : HttpResponse SearchBody) :
    Except String (List GraphitiFact) :=
  (fetch "/get-memory" res).map (fun data => data.facts.getD [])

/-- Embeds GraphitiClient.ingest: POST the messages to /messages and
return the parsed response body unchanged. -/
def ingest (messages : List GraphitiMessage) (res : HttpResponse IngestBody) :
    Except String IngestBody :=
  fetch "/messages" res

/-- Embeds GraphitiClient.healthy: GET /healthcheck inside a try block
returning res.ok, any failure caught and turned into false. -/
def healthy (out : FetchOutcome Unit) : Bool :=
  match out with
  | .netError _ => false
  | .response status _ => resOk status

/-- Embeds GraphitiClient.episodes: GET the bare array, returning the
empty list on a non-2xx status, and with any failure (network error,
timeout, body that fails to parse) caught and turned into the empty
list. -/
def episodes (out : FetchOutcome (List α)) : List α :=
  match out with
  | .netError _ => []
  | .response status body =>
    if resOk status then
      match body with
      | .ok v => v
      | .error _ => []
    else []

end GraphitiClient

/-- Whether the second character list is a prefix of the first. -/
def startsWithChars : List Char → List Char → Bool
  | _, [] => true
  | [], _ :: _ => false
  | a :: s, b :: p => a == b && startsWithChars s p

/-- Whether the second character list occurs inside the first. -/
def containsChars : List Char → List Char → Bool
  | [], pat => pat.isEmpty
  | s@(_ :: rest), pat => startsWithChars s pat || containsChars rest pat

/-- Embeds the JavaScript String.prototype.includes substring test used by
the handlers: true exactly when the pattern occurs in s. -/
def hasSubstr (s pat : String) : Bool := containsChars s.toList pat.toList

/-- Fuel-driven global replacement on character lists: each occurrence of
the pattern is replaced by the replacement, scanning left to right.  The
fuel bounds the number of scanning steps; the callers pass the length of
the scanned list, which suffices for a nonempty pattern. -/
def replaceCharsFuel : Nat → List Char → List Char → List Char → List Char
  | 0, s, _, _ => s
  | fuel + 1, s, pat, rep =>
    match s with
    | [] => []
    | c :: rest =>
      if startsWithChars s pat then
        rep ++ replaceCharsFuel fuel (s.drop pat.length) pat rep
      else
        c :: replaceCharsFuel fuel rest pat rep

/-- Embeds the JavaScript global regex replacement of a literal pattern,
as in replacing every occurrence of NO_REPLY by the empty string. -/
def jsReplace (s pat rep : String) : String :=
  String.mk (replaceCharsFuel s.toList.length s.toList pat.toList rep.toList)

/-- Embeds the JavaScript String.prototype.trim call: drop leading and
trailing whitespace. -/
def jsTrim (s : String) : String :=
  String.mk (((s.toList.dropWhile Char.isWhitespace).reverse.dropWhile Char.isWhitespace).reverse)

/-- One call issued by a handler against the client, recorded in order. -/
inductive ClientCall where
  | healthCheck
  | searchCall (query : String) (maxFacts : Nat)
  | ingestCall (messages : List GraphitiMessage)
deriving DecidableEq

/-- Boolean recogniser for ingest calls in a trace. -/
def ClientCall.isIngest : ClientCall → Bool
  | .ingestCall _ => true
  | _ => false

/-- Boolean recogniser for search calls in a trace. -/
def ClientCall.isSearch : ClientCall → Bool
  | .searchCall _ _ => true
  | _ => false

/-- Behaviour of the remote service during one handler invocation: the
value returned by healthy (which never throws), the outcome of a search
call and the outcome of an ingest call, where an error value stands for a
thrown exception.  The field now stands for the Date.now timestamp the
handler reads. -/
structure ServiceBehaviour where
  healthyResult : Bool
  searchResult : Except String (List GraphitiFact)
  ingestResult : Except String IngestBody
  now : String

/-- Result of running a handler: the value it produces (an error value
stands for an exception propagating out of the handler) together with the
client calls it issued. -/
structure TraceResult (α : Type) where
  result : Except String α
  calls : List ClientCall

/-- Embeds the try/catch wrapper of a handler body: an exception thrown
inside the body is caught, logged and converted into the default value. -/
def catchAll (default : α) (r : TraceResult α) : TraceResult α :=
  TraceResult.mk
    (Except.ok (match r.result with
      | .ok v => v
      | .error _ => default))
    r.calls

/-- Plugin configuration fields consumed by the handlers, with the
defaults applied in register in index.ts. -/
structure PluginConfig where
  recallMaxFacts : Nat := 10
  captureRoles : List String := ["user", "assistant"]
  minPromptLength : Nat := 10

/-- One block of an array-valued message content: only blocks of kind
text with a string text field contribute. -/
inductive ContentBlock where
  | textBlock (text : String)
  | otherBlock
deriving DecidableEq

/-- Content of an event message: a plain string, an array of blocks, or
any other value. -/
inductive MsgContent where
  | str (s : String)
  | blocks (bs : List ContentBlock)
  | other
deriving DecidableEq

/-- One entry of event.messages: either an object with a role and a
content, or a value that is not an object (skipped by the handlers). -/
inductive EventMessage where
  | obj (role : String) (content : MsgContent)
  | notObj
deriving DecidableEq

/-- Payload of the before agent start event. -/
structure RecallEvent where
  prompt : Option String

/-- Payload of the agent end event. -/
structure AgentEndEvent where
  success : Bool
  messages : Option (List EventMessage)

/-- Payload of the before reset event. -/
structure ResetEvent where
  messages : Option (List EventMessage)

/-- Embeds the skip-marker test of the before agent start handler in
index.ts. -/
def skipPrompt (p : String) : Bool :=
  hasSubstr p "HEARTBEAT" || hasSubstr p "Pre-compaction memory flush" ||
    hasSubstr p "GatewayRestart"

/-- Embeds the context block built by the before agent start handler. -/
def formatRecallContext (facts : List GraphitiFact) : String :=
  "<graphiti-context>\nRelevant knowledge graph facts (auto-recalled):\n" ++
    String.intercalate "\n" (facts.map (fun f => "- **" ++ f.name ++ "**: " ++ f.fact)) ++
    "\n</graphiti-context>"

/-- Embeds the try block of the before agent start handler: health gate,
search, empty-result check, context formatting.  A search error is left
uncaught here and caught by the surrounding catchAll. -/
def recallTry (cfg : PluginConfig) (beh : ServiceBehaviour) (prompt : String) :
    TraceResult (Option String) :=
  if beh.healthyResult = false then
    TraceResult.mk (Except.ok none) [ClientCall.healthCheck]
  else
    match beh.searchResult with
    | .error e =>
      TraceResult.mk (Except.error e)
        [ClientCall.healthCheck, ClientCall.searchCall prompt cfg.recallMaxFacts]
    | .ok facts =>
      if facts.length = 0 then
        TraceResult.mk (Except.ok none)
          [ClientCall.healthCheck, ClientCall.searchCall prompt cfg.recallMaxFacts]
      else
        TraceResult.mk (Except.ok (some (formatRecallContext facts)))
          [ClientCall.healthCheck, ClientCall.searchCall prompt cfg.recallMaxFacts]

/-- Embeds the before agent start handler of index.ts: prompt presence
and length gate, skip markers, then the try block wrapped in catchAll. -/
def beforeAgentStart (cfg : PluginConfig) (beh : ServiceBehaviour) (ev : RecallEvent) :
    TraceResult (Option String) :=
  match ev.prompt with
  | none => TraceResult.mk (Except.ok none) []
  | some p =>
    if p.length = 0 ∨ p.length < cfg.minPromptLength then
      TraceResult.mk (Except.ok none) []
    else if skipPrompt p then
      TraceResult.mk (Except.ok none) []
    else
      catchAll none (recallTry cfg beh p)

/-- Embeds the text extraction loop of the agent end handler: keep
messages whose role is in captureRoles, taking a string content whole and
the text of every text block of an array content. -/
def extractTexts (captureRoles : List String) (msgs : List EventMessage) :
    List (String × String) :=
  msgs.flatMap (fun m =>
    match m with
    | .notObj => []
    | .obj role content =>
      if captureRoles.contains role then
        match content with
        | .str s => [(role, s)]
        | .blocks bs =>
          bs.filterMap (fun b =>
            match b with
            | .textBlock t => some (role, t)
            | .otherBlock => none)
        | .other => []
      else [])

/-- Embeds the totalContent join of the agent end handler. -/
def agentEndTotal (cfg : PluginConfig) (msgs : List EventMessage) : String :=
  String.intercalate " " ((extractTexts cfg.captureRoles msgs).map Prod.snd)

/-- Embeds the episode body of the agent end handler: last 10 extracted
texts, each truncated to 2000 characters, joined with blank lines, the
whole truncated to 12000 characters. -/
def agentEndEpisodeContent (texts : List (String × String)) : String :=
  (String.intercalate "\n\n"
      ((texts.drop (texts.length - 10)).map (fun t => t.1 ++ ": " ++ t.2.take 2000))).take 12000

/-- Embeds the try block of the agent end handler in index.ts: health
gate, extraction, the three content filters, then the ingest call. -/
def agentEndTry (cfg : PluginConfig) (beh : ServiceBehaviour) (msgs : List EventMessage) :
    TraceResult (Option Unit) :=
  if beh.healthyResult = false then
    TraceResult.mk (Except.ok none) [ClientCall.healthCheck]
  else
    if (extractTexts cfg.captureRoles msgs).length = 0 then
      TraceResult.mk (Except.ok none) [ClientCall.healthCheck]
    else if (agentEndTotal cfg msgs).length < 50 then
      TraceResult.mk (Except.ok none) [ClientCall.healthCheck]
    else if hasSubstr (agentEndTotal cfg msgs) "HEARTBEAT_OK" ||
        hasSubstr (agentEndTotal cfg msgs) "Pre-compaction memory flush" then
      TraceResult.mk (Except.ok none) [ClientCall.healthCheck]
    else if (jsTrim (jsReplace (agentEndTotal cfg msgs) "NO_REPLY" "")).length < 50 then
      TraceResult.mk (Except.ok none) [ClientCall.healthCheck]
    else
      let msg : GraphitiMessage :=
        { content := agentEndEpisodeContent (extractTexts cfg.captureRoles msgs)
          role_type := "user"
          role := "conversation"
          name := some ("conversation-" ++ beh.now)
          timestamp := some beh.now
          source_description := some "OpenClaw auto-capture: agent conversation" }
      match beh.ingestResult with
      | .error e =>
        TraceResult.mk (Except.error e) [ClientCall.healthCheck, ClientCall.ingestCall [msg]]
      | .ok _ =>
        TraceResult.mk (Except.ok (some Unit.unit))
          [ClientCall.healthCheck, ClientCall.ingestCall [msg]]

/-- Embeds the agent end handler of index.ts: success and non-empty
message gate, then the try block wrapped in catchAll. -/
def agentEnd (cfg : PluginConfig) (beh : ServiceBehaviour) (ev : AgentEndEvent) :
    TraceResult (Option Unit) :=
  if ev.success = false then
    TraceResult.mk (Except.ok none) []
  else
    match ev.messages with
    | none => TraceResult.mk (Except.ok none) []
    | some msgs =>
      if msgs.length = 0 then
        TraceResult.mk (Except.ok none) []
      else
        catchAll none (agentEndTry cfg beh msgs)

/-- Embeds the line extraction of the before reset handler: user or
assistant role, string content longer than 20 characters, flattened to
role colon content with the content truncated to 1000 characters. -/
def extractResetLines (msgs : List EventMessage) : List String :=
  msgs.filterMap (fun m =>
    match m with
    | .notObj => none
    | .obj role content =>
      if role = "user" ∨ role = "assistant" then
        match content with
        | .str s => if 20 < s.length then some (role ++ ": " ++ s.take 1000) else none
        | .blocks _ => none
        | .other => none
      else none)

/-- Embeds the episode body of the before reset handler: last 20 lines
joined with blank lines, the whole truncated to 12000 characters. -/
def resetEpisodeContent (lines : List String) : String :=
  (String.intercalate "\n\n" (lines.drop (lines.length - 20))).take 12000

/-- Embeds the try block of the before reset handler: health gate, line
extraction, the two-line floor, then the ingest call. -/
def beforeResetTry (beh : ServiceBehaviour) (msgs : List EventMessage) :
    TraceResult (Option Unit) :=
  if beh.healthyResult = false then
    TraceResult.mk (Except.ok none) [ClientCall.healthCheck]
  else
    if (extractResetLines msgs).length < 2 then
      TraceResult.mk (Except.ok none) [ClientCall.healthCheck]
    else
      let msg : GraphitiMessage :=
        { content := resetEpisodeContent (extractResetLines msgs)
          role_type := "user"
          role := "conversation"
          name := some ("session-reset-" ++ beh.now)
          timestamp := some beh.now
          source_description := some "OpenClaw auto-capture: session reset" }
      match beh.ingestResult with
      | .error e =>
        TraceResult.mk (Except.error e) [ClientCall.healthCheck, ClientCall.ingestCall [msg]]
      | .ok _ =>
        TraceResult.mk (Except.ok (some Unit.unit))
          [ClientCall.healthCheck, ClientCall.ingestCall [msg]]

/-- Embeds the before reset handler of part 000: the four-message floor,
then the try block wrapped in catchAll. -/
def beforeReset (beh : ServiceBehaviour) (ev : ResetEvent) : TraceResult (Option Unit) :=
  match ev.messages with
  | none => TraceResult.mk (Except.ok none) []
  | some msgs =>
    if msgs.length < 4 then
      TraceResult.mk (Except.ok none) []
    else
      catchAll none (beforeResetTry beh msgs)

/-- The five logical operations of the client. -/
inductive ClientOp where
  | healthyOp
  | searchOp
  | getMemoryOp
  | ingestOp
  | episodesOp
deriving DecidableEq

/-- Whether an operation is sent as a POST (search, get-memory, ingest)
or as a GET (healthcheck, episodes). -/
def ClientOp.isPost : ClientOp → Bool
  | .searchOp => true
  | .getMemoryOp => true
  | .ingestOp => true
  | .healthyOp => false
  | .episodesOp => false

/-- Modelled from the spec: the header construction of the apiKey-aware
client.  The repository documents, in its CHANGELOG entry for 0.2.0 and
in its README authentication section, that every request to the server
carries an Authorization header with a Bearer token exactly when an
apiKey is configured, and that no Authorization header is sent otherwise;
the client file implementing this is not present under src, which holds
an earlier draft of client.ts without the apiKey field.  Following the
spec wording, every POST carries a Content-Type header and every
operation appends the Authorization Bearer header when a token is
configured and nothing otherwise. -/
def requestHeadersFor (op : ClientOp) (apiKey : Option String) : List (String × String) :=
  (if op.isPost then [("Content-Type", "application/json")] else []) ++
    (match apiKey with
     | some t => [("Authorization", "Bearer " ++ t)]
     | none => [])

end Graphiti

namespace Graphiti

/-- Claim C1: for every list of outbound messages, ingest succeeds and
returns the parsed response body unchanged whenever the HTTP status lies
anywhere in the 2xx range. -/
theorem ingest_accepts_2xx (messages : List GraphitiMessage) (res : HttpResponse IngestBody)
    (h1 : 200 ≤ res.status) (h2 : res.status < 300) :
    GraphitiClient.ingest messages res = Except.ok res.json := by
  unfold GraphitiClient.ingest GraphitiClient.fetch
  have hok : resOk res.status = true := by
    unfold resOk
    simp only [Bool.and_eq_true, decide_eq_true_eq]
    exact ⟨h1, h2⟩
  simp [hok]

/-- Witness for C1: a 202 response whose body is the documented queue
acknowledgement yields exactly that value from ingest. -/
theorem ingest_accepts_2xx_witness :
    200 ≤ 202 ∧ 202 < 300 ∧
      GraphitiClient.ingest
          [GraphitiMessage.mk "hello there" "user" "conversation" none none none]
          (HttpResponse.mk 202 "" (IngestBody.mk true "Messages added to processing queue")) =
        Except.ok (IngestBody.mk true "Messages added to processing queue") :=
  ⟨by decide, by decide,
    ingest_accepts_2xx
      [GraphitiMessage.mk "hello there" "user" "conversation" none none none]
      (HttpResponse.mk 202 "" (IngestBody.mk true "Messages added to processing queue"))
      (by decide) (by decide)⟩

/-- Claim C6: search fails exactly when the response status is outside
the success range, with an error carrying the status code and the body
text, and on a success status it returns the facts array of the body, or
the empty list when that field is absent. -/
theorem search_error_iff_status (query : String) (maxFacts : Nat) (res : HttpResponse SearchBody) :
    (resOk res.status = false →
      GraphitiClient.search query maxFacts res =
        Except.error ("Graphiti /search returned " ++ toString res.status ++ ": " ++ res.text)) ∧
    (resOk res.status = true →
      GraphitiClient.search query maxFacts res = Except.ok (res.json.facts.getD [])) ∧
    ((∃ e, GraphitiClient.search query maxFacts res = Except.error e) ↔
      resOk res.status = false) := by
  unfold GraphitiClient.search GraphitiClient.fetch
  by_cases hok : resOk res.status = true
  · simp [hok, Except.map]
  · simp only [Bool.not_eq_true] at hok
    simp [hok, Except.map]

/-- Witness for C6: a 500 response yields the documented error, a 200
response with a facts field yields those facts. -/
theorem search_error_iff_status_witness :
    GraphitiClient.search "dark mode" 5 (HttpResponse.mk 500 "boom" (SearchBody.mk none)) =
        Except.error "Graphiti /search returned 500: boom" ∧
      GraphitiClient.search "dark mode" 5
          (HttpResponse.mk 200 ""
            (SearchBody.mk (some [GraphitiFact.mk "u1" "WORKS_AT" "Alice works at Acme" none none "" none]))) =
        Except.ok [GraphitiFact.mk "u1" "WORKS_AT" "Alice works at Acme" none none "" none] :=
  ⟨(search_error_iff_status "dark mode" 5 (HttpResponse.mk 500 "boom" (SearchBody.mk none))).1
      (by decide),
    (search_error_iff_status "dark mode" 5
        (HttpResponse.mk 200 ""
          (SearchBody.mk (some [GraphitiFact.mk "u1" "WORKS_AT" "Alice works at Acme" none none "" none])))).2.1
      (by decide)⟩

/-- Claim C5: the advisory operations never fail.  healthy is a total
boolean: it is true exactly when a response with a success status
arrived, hence false on any non-success status, network error or
timeout.  episodes is a total list: it is empty on a network error or
timeout and on any non-success status, and on a success status it is
the parsed bare array of the body. -/
theorem advisory_ops_total (hOut : FetchOutcome Unit) (eOut : FetchOutcome (List Nat)) :
    (GraphitiClient.healthy hOut = true ↔
      ∃ status body, hOut = FetchOutcome.response status body ∧ resOk status = true) ∧
    (∀ msg, eOut = FetchOutcome.netError msg → GraphitiClient.episodes eOut = []) ∧
    (∀ status body, eOut = FetchOutcome.response status body → resOk status = false →
      GraphitiClient.episodes eOut = []) ∧
    (∀ status v, eOut = FetchOutcome.response status (Except.ok v) → resOk status = true →
      GraphitiClient.episodes eOut = v) := by
  refine ⟨?_, ?_, ?_, ?_⟩
  · constructor
    · intro h
      cases hOut with
      | netError m => simp [GraphitiClient.healthy] at h
      | response st b =>
        refine ⟨st, b, rfl, ?_⟩
        simpa [GraphitiClient.healthy] using h
    · rintro ⟨st, b, rfl, hok⟩
      simpa [GraphitiClient.healthy] using hok
  · rintro msg rfl
    rfl
  · rintro status body rfl hbad
    simp [GraphitiClient.episodes, hbad]
  · rintro status v rfl hok
    simp [GraphitiClient.episodes, hok]

/-- Witness for C5: healthy on a 200 response, episodes on an
unreachable host and on a 200 response carrying a bare array. -/
theorem advisory_ops_total_witness :
    GraphitiClient.healthy (FetchOutcome.response 200 (Except.ok Unit.unit)) = true ∧
      GraphitiClient.episodes (FetchOutcome.netError "connection refused" : FetchOutcome (List Nat)) = [] ∧
      GraphitiClient.episodes (FetchOutcome.response 200 (Except.ok [3, 7])) = [3, 7] :=
  ⟨(advisory_ops_total (FetchOutcome.response 200 (Except.ok Unit.unit))
        (FetchOutcome.netError "connection refused")).1.mpr
      ⟨200, Except.ok Unit.unit, rfl, by decide⟩,
    (advisory_ops_total (FetchOutcome.response 200 (Except.ok Unit.unit))
        (FetchOutcome.netError "connection refused")).2.1 "connection refused" rfl,
    (advisory_ops_total (FetchOutcome.response 200 (Except.ok Unit.unit))
        (FetchOutcome.response 200 (Except.ok [3, 7]))).2.2.2 200 [3, 7] rfl (by decide)⟩

/-- Claim C3: every client operation carries the Authorization Bearer
header exactly when a token is configured, and no Authorization header
at all otherwise.  The header construction is modelled from the spec,
see requestHeadersFor. -/
theorem auth_header_iff_token (op : ClientOp) (apiKey : Option String) :
    (∀ t, apiKey = some t →
      ("Authorization", "Bearer " ++ t) ∈ requestHeadersFor op apiKey) ∧
    (apiKey = none →
      ∀ v, ("Authorization", v) ∉ requestHeadersFor op apiKey) := by
  constructor
  · rintro t rfl
    unfold requestHeadersFor
    cases hPost : op.isPost <;> simp
  · rintro rfl v
    unfold requestHeadersFor
    cases hPost : op.isPost <;> simp

/-- Witness for C3: with the token secret configured, the search request
carries the Bearer header; with no token, the health request carries no
Authorization header. -/
theorem auth_header_iff_token_witness :
    ("Authorization", "Bearer secret") ∈ requestHeadersFor ClientOp.searchOp (some "secret") ∧
      ∀ v, ("Authorization", v) ∉ requestHeadersFor ClientOp.healthyOp none :=
  ⟨(auth_header_iff_token ClientOp.searchOp (some "secret")).1 "secret" rfl,
    (auth_header_iff_token ClientOp.healthyOp none).2 rfl⟩

/-- The catchAll wrapper always produces a non-error result. -/
theorem catchAll_result_ok (d : α) (r : TraceResult α) :
    ∃ v, (catchAll d r).result = Except.ok v :=
  ⟨_, rfl⟩

/-- The catchAll wrapper leaves the issued calls unchanged. -/
theorem catchAll_calls (d : α) (r : TraceResult α) : (catchAll d r).calls = r.calls :=
  rfl

/-- A caught exception is converted into the default value. -/
theorem catchAll_result_of_error (d : α) (r : TraceResult α) (e : String)
    (h : r.result = Except.error e) : (catchAll d r).result = Except.ok d := by
  simp [catchAll, h]

/-- A non-throwing body passes through the catchAll wrapper unchanged. -/
theorem catchAll_result_of_ok (d : α) (r : TraceResult α) (v : α)
    (h : r.result = Except.ok v) : (catchAll d r).result = Except.ok v := by
  simp [catchAll, h]

/-- When search throws, the recall try block either skipped before the
search or rethrows that very error. -/
theorem recallTry_result_cases (cfg : PluginConfig) (beh : ServiceBehaviour) (p : String)
    (e : String) (he : beh.searchResult = Except.error e) :
    (recallTry cfg beh p).result = Except.ok none ∨
    (recallTry cfg beh p).result = Except.error e := by
  simp only [recallTry, he]
  split
  · exact Or.inl rfl
  · exact Or.inr rfl

/-- When ingest throws, the agent end try block either skipped before
the ingest or rethrows that very error. -/
theorem agentEndTry_result_cases (cfg : PluginConfig) (beh : ServiceBehaviour)
    (msgs : List EventMessage) (e : String) (he : beh.ingestResult = Except.error e) :
    (agentEndTry cfg beh msgs).result = Except.ok none ∨
    (agentEndTry cfg beh msgs).result = Except.error e := by
  simp only [agentEndTry, he]
  split
  · exact Or.inl rfl
  · split
    · exact Or.inl rfl
    · split
      · exact Or.inl rfl
      · split
        · exact Or.inl rfl
        · split
          · exact Or.inl rfl
          · exact Or.inr rfl

/-- When ingest throws, the reset try block either skipped before the
ingest or rethrows that very error. -/
theorem beforeResetTry_result_cases (beh : ServiceBehaviour) (msgs : List EventMessage)
    (e : String) (he : beh.ingestResult = Except.error e) :
    (beforeResetTry beh msgs).result = Except.ok none ∨
    (beforeResetTry beh msgs).result = Except.error e := by
  simp only [beforeResetTry, he]
  split
  · exact Or.inl rfl
  · split
    · exact Or.inl rfl
    · exact Or.inr rfl

/-- Claim C2: for every event payload and every behaviour of the remote
service, including thrown errors from search and ingest, each of the
three pipeline handlers produces a non-error result, so no exception
from the remote service ever propagates out of a handler; and the
handlers degrade to no effect at their boundary: a thrown search error
makes the recall handler return no context block, and a thrown ingest
error makes each capture handler produce nothing further. -/
theorem pipeline_failures_contained (cfg : PluginConfig) (beh : ServiceBehaviour)
    (rev : RecallEvent) (aev : AgentEndEvent) (sev : ResetEvent) :
    ((∃ v, (beforeAgentStart cfg beh rev).result = Except.ok v) ∧
      (∃ v, (agentEnd cfg beh aev).result = Except.ok v) ∧
      (∃ v, (beforeReset beh sev).result = Except.ok v)) ∧
    ((∀ e, beh.searchResult = Except.error e →
        (beforeAgentStart cfg beh rev).result = Except.ok none) ∧
      (∀ e, beh.ingestResult = Except.error e →
        (agentEnd cfg beh aev).result = Except.ok none) ∧
      (∀ e, beh.ingestResult = Except.error e →
        (beforeReset beh sev).result = Except.ok none)) := by
  refine ⟨⟨?_, ?_, ?_⟩, ?_, ?_, ?_⟩
  · rcases rev with ⟨_ | p⟩
    · exact ⟨none, rfl⟩
    · simp only [beforeAgentStart]
      split
      · exact ⟨none, rfl⟩
      · split
        · exact ⟨none, rfl⟩
        · exact catchAll_result_ok none _
  · rcases aev with ⟨s, ms⟩
    simp only [agentEnd]
    split
    · exact ⟨none, rfl⟩
    · cases ms with
      | none => exact ⟨none, rfl⟩
      | some msgs =>
        simp only
        split
        · exact ⟨none, rfl⟩
        · exact catchAll_result_ok none _
  · rcases sev with ⟨ms⟩
    cases ms with
    | none => exact ⟨none, rfl⟩
    | some msgs =>
      simp only [beforeReset]
      split
      · exact ⟨none, rfl⟩
      · exact catchAll_result_ok none _
  · intro e he
    rcases rev with ⟨_ | p⟩
    · rfl
    · simp only [beforeAgentStart]
      split
      · rfl
      · split
        · rfl
        · rcases recallTry_result_cases cfg beh p e he with h | h
          · exact catchAll_result_of_ok none _ none h
          · exact catchAll_result_of_error none _ e h
  · intro e he
    rcases aev with ⟨s, ms⟩
    simp only [agentEnd]
    split
    · rfl
    · cases ms with
      | none => rfl
      | some msgs =>
        simp only
        split
        · rfl
        · rcases agentEndTry_result_cases cfg beh msgs e he with h | h
          · exact catchAll_result_of_ok none _ none h
          · exact catchAll_result_of_error none _ e h
  · intro e he
    rcases sev with ⟨ms⟩
    cases ms with
    | none => rfl
    | some msgs =>
      simp only [beforeReset]
      split
      · rfl
      · rcases beforeResetTry_result_cases beh msgs e he with h | h
        · exact catchAll_result_of_ok none _ none h
        · exact catchAll_result_of_error none _ e h

/-- Service behaviour whose search and ingest calls both throw, used as
concrete input. -/
def throwingBeh : ServiceBehaviour :=
  ServiceBehaviour.mk true (Except.error "search boom") (Except.error "ingest boom") "T"

/-- Witness for C2: with a healthy service whose search and ingest both
throw, the recall handler returns no context block and both capture
handlers produce nothing further, on fully eligible payloads. -/
theorem pipeline_failures_contained_witness :
    throwingBeh.searchResult = Except.error "search boom" ∧
      throwingBeh.ingestResult = Except.error "ingest boom" ∧
      (beforeAgentStart (PluginConfig.mk 10 ["user", "assistant"] 10) throwingBeh
          (RecallEvent.mk (some "Tell me about the project architecture"))).result =
        Except.ok none ∧
      (agentEnd (PluginConfig.mk 10 ["user", "assistant"] 10) throwingBeh
          (AgentEndEvent.mk true
            (some [EventMessage.obj "user"
                (MsgContent.str "What is the architecture of our system today?"),
              EventMessage.obj "assistant"
                (MsgContent.str "It is a microservices architecture with Neo4j."),
              EventMessage.obj "user"
                (MsgContent.str "Tell me more about the graph database please."),
              EventMessage.obj "assistant"
                (MsgContent.str "Neo4j stores entities and relationships.")]))).result =
        Except.ok none ∧
      (beforeReset throwingBeh
          (ResetEvent.mk
            (some [EventMessage.obj "user"
                (MsgContent.str "What is the architecture of our system today?"),
              EventMessage.obj "assistant"
                (MsgContent.str "It is a microservices architecture with Neo4j."),
              EventMessage.obj "user"
                (MsgContent.str "Tell me more about the graph database please."),
              EventMessage.obj "assistant"
                (MsgContent.str "Neo4j stores entities and relationships.")]))).result =
        Except.ok none :=
  ⟨rfl, rfl,
    (pipeline_failures_contained (PluginConfig.mk 10 ["user", "assistant"] 10) throwingBeh
        (RecallEvent.mk (some "Tell me about the project architecture"))
        (AgentEndEvent.mk true
          (some [EventMessage.obj "user"
              (MsgContent.str "What is the architecture of our system today?"),
            EventMessage.obj "assistant"
              (MsgContent.str "It is a microservices architecture with Neo4j."),
            EventMessage.obj "user"
              (MsgContent.str "Tell me more about the graph database please."),
            EventMessage.obj "assistant"
              (MsgContent.str "Neo4j stores entities and relationships.")]))
        (ResetEvent.mk
          (some [EventMessage.obj "user"
              (MsgContent.str "What is the architecture of our system today?"),
            EventMessage.obj "assistant"
              (MsgContent.str "It is a microservices architecture with Neo4j."),
            EventMessage.obj "user"
              (MsgContent.str "Tell me more about the graph database please."),
            EventMessage.obj "assistant"
              (MsgContent.str "Neo4j stores entities and relationships.")]))).2.1
      "search boom" rfl,
    (pipeline_failures_contained (PluginConfig.mk 10 ["user", "assistant"] 10) throwingBeh
        (RecallEvent.mk (some "Tell me about the project architecture"))
        (AgentEndEvent.mk true
          (some [EventMessage.obj "user"
              (MsgContent.str "What is the architecture of our system today?"),
            EventMessage.obj "assistant"
              (MsgContent.str "It is a microservices architecture with Neo4j."),
            EventMessage.obj "user"
              (MsgContent.str "Tell me more about the graph database please."),
            EventMessage.obj "assistant"
              (MsgContent.str "Neo4j stores entities and relationships.")]))
        (ResetEvent.mk
          (some [EventMessage.obj "user"
              (MsgContent.str "What is the architecture of our system today?"),
            EventMessage.obj "assistant"
              (MsgContent.str "It is a microservices architecture with Neo4j."),
            EventMessage.obj "user"
              (MsgContent.str "Tell me more about the graph database please."),
            EventMessage.obj "assistant"
              (MsgContent.str "Neo4j stores entities and relationships.")]))).2.2.1
      "ingest boom" rfl,
    (pipeline_failures_contained (PluginConfig.mk 10 ["user", "assistant"] 10) throwingBeh
        (RecallEvent.mk (some "Tell me about the project architecture"))
        (AgentEndEvent.mk true
          (some [EventMessage.obj "user"
              (MsgContent.str "What is the architecture of our system today?"),
            EventMessage.obj "assistant"
              (MsgContent.str "It is a microservices architecture with Neo4j."),
            EventMessage.obj "user"
              (MsgContent.str "Tell me more about the graph database please."),
            EventMessage.obj "assistant"
              (MsgContent.str "Neo4j stores entities and relationships.")]))
        (ResetEvent.mk
          (some [EventMessage.obj "user"
              (MsgContent.str "What is the architecture of our system today?"),
            EventMessage.obj "assistant"
              (MsgContent.str "It is a microservices architecture with Neo4j."),
            EventMessage.obj "user"
              (MsgContent.str "Tell me more about the graph database please."),
            EventMessage.obj "assistant"
              (MsgContent.str "Neo4j stores entities and relationships.")]))).2.2.2
      "ingest boom" rfl⟩

/-- Claim C4: whenever the health check reports unhealthy, each of the
three pipeline handlers issues zero search calls and zero ingest calls
against the transport, for every event payload. -/
theorem unhealthy_no_remote_calls (cfg : PluginConfig) (beh : ServiceBehaviour)
    (rev : RecallEvent) (aev : AgentEndEvent) (sev : ResetEvent)
    (hun : beh.healthyResult = false) :
    ((beforeAgentStart cfg beh rev).calls.countP ClientCall.isSearch = 0 ∧
      (beforeAgentStart cfg beh rev).calls.countP ClientCall.isIngest = 0) ∧
    ((agentEnd cfg beh aev).calls.countP ClientCall.isSearch = 0 ∧
      (agentEnd cfg beh aev).calls.countP ClientCall.isIngest = 0) ∧
    ((beforeReset beh sev).calls.countP ClientCall.isSearch = 0 ∧
      (beforeReset beh sev).calls.countP ClientCall.isIngest = 0) := by
  refine ⟨?_, ?_, ?_⟩
  · rcases rev with ⟨_ | p⟩
    · exact ⟨rfl, rfl⟩
    · simp only [beforeAgentStart]
      split
      · exact ⟨rfl, rfl⟩
      · split
        · exact ⟨rfl, rfl⟩
        · simp [catchAll_calls, recallTry, hun, ClientCall.isSearch, ClientCall.isIngest]
  · rcases aev with ⟨s, ms⟩
    simp only [agentEnd]
    split
    · exact ⟨rfl, rfl⟩
    · cases ms with
      | none => exact ⟨rfl, rfl⟩
      | some msgs =>
        simp only
        split
        · exact ⟨rfl, rfl⟩
        · simp [catchAll_calls, agentEndTry, hun, ClientCall.isSearch, ClientCall.isIngest]
  · rcases sev with ⟨ms⟩
    cases ms with
    | none => exact ⟨rfl, rfl⟩
    | some msgs =>
      simp only [beforeReset]
      split
      · exact ⟨rfl, rfl⟩
      · simp [catchAll_calls, beforeResetTry, hun, ClientCall.isSearch, ClientCall.isIngest]

/-- Service behaviour reporting unhealthy, used as concrete input. -/
def unhealthyBeh : ServiceBehaviour :=
  ServiceBehaviour.mk false (Except.ok []) (Except.ok (IngestBody.mk true "ok")) "T"

/-- Witness for C4: with an unhealthy service and fully eligible event
payloads, all three handlers issue zero search and zero ingest calls. -/
theorem unhealthy_no_remote_calls_witness :
    unhealthyBeh.healthyResult = false ∧
      (((beforeAgentStart (PluginConfig.mk 10 ["user", "assistant"] 10) unhealthyBeh
            (RecallEvent.mk (some "Tell me about the project architecture"))).calls.countP
          ClientCall.isSearch = 0 ∧
        (beforeAgentStart (PluginConfig.mk 10 ["user", "assistant"] 10) unhealthyBeh
            (RecallEvent.mk (some "Tell me about the project architecture"))).calls.countP
          ClientCall.isIngest = 0) ∧
      ((agentEnd (PluginConfig.mk 10 ["user", "assistant"] 10) unhealthyBeh
            (AgentEndEvent.mk true
              (some [EventMessage.obj "user" (MsgContent.str "What is the architecture of our system today?"),
                EventMessage.obj "assistant" (MsgContent.str "It is a microservices architecture with Neo4j."),
                EventMessage.obj "user" (MsgContent.str "Tell me more about the graph database please."),
                EventMessage.obj "assistant" (MsgContent.str "Neo4j stores entities and relationships.")]))).calls.countP
          ClientCall.isSearch = 0 ∧
        (agentEnd (PluginConfig.mk 10 ["user", "assistant"] 10) unhealthyBeh
            (AgentEndEvent.mk true
              (some [EventMessage.obj "user" (MsgContent.str "What is the architecture of our system today?"),
                EventMessage.obj "assistant" (MsgContent.str "It is a microservices architecture with Neo4j."),
                EventMessage.obj "user" (MsgContent.str "Tell me more about the graph database please."),
                EventMessage.obj "assistant" (MsgContent.str "Neo4j stores entities and relationships.")]))).calls.countP
          ClientCall.isIngest = 0) ∧
      ((beforeReset unhealthyBeh
            (ResetEvent.mk
              (some [EventMessage.obj "user" (MsgContent.str "What is the architecture of our system today?"),
                EventMessage.obj "assistant" (MsgContent.str "It is a microservices architecture with Neo4j."),
                EventMessage.obj "user" (MsgContent.str "Tell me more about the graph database please."),
                EventMessage.obj "assistant" (MsgContent.str "Neo4j stores entities and relationships.")]))).calls.countP
          ClientCall.isSearch = 0 ∧
        (beforeReset unhealthyBeh
            (ResetEvent.mk
              (some [EventMessage.obj "user" (MsgContent.str "What is the architecture of our system today?"),
                EventMessage.obj "assistant" (MsgContent.str "It is a microservices architecture with Neo4j."),
                EventMessage.obj "user" (MsgContent.str "Tell me more about the graph database please."),
                EventMessage.obj "assistant" (MsgContent.str "Neo4j stores entities and relationships.")]))).calls.countP
          ClientCall.isIngest = 0)) :=
  ⟨rfl,
    unhealthy_no_remote_calls (PluginConfig.mk 10 ["user", "assistant"] 10) unhealthyBeh
      (RecallEvent.mk (some "Tell me about the project architecture"))
      (AgentEndEvent.mk true
        (some [EventMessage.obj "user" (MsgContent.str "What is the architecture of our system today?"),
          EventMessage.obj "assistant" (MsgContent.str "It is a microservices architecture with Neo4j."),
          EventMessage.obj "user" (MsgContent.str "Tell me more about the graph database please."),
          EventMessage.obj "assistant" (MsgContent.str "Neo4j stores entities and relationships.")]))
      (ResetEvent.mk
        (some [EventMessage.obj "user" (MsgContent.str "What is the architecture of our system today?"),
          EventMessage.obj "assistant" (MsgContent.str "It is a microservices architecture with Neo4j."),
          EventMessage.obj "user" (MsgContent.str "Tell me more about the graph database please."),
          EventMessage.obj "assistant" (MsgContent.str "Neo4j stores entities and relationships.")]))
      rfl⟩

/-- Dropping a prefix never lengthens a list. -/
theorem dropWhile_length_le (p : α → Bool) (l : List α) : (l.dropWhile p).length ≤ l.length := by
  induction l with
  | nil => simp [List.dropWhile]
  | cons a l ih =>
    by_cases h : p a
    · simp only [List.dropWhile, h]
      exact Nat.le_succ_of_le ih
    · simp [List.dropWhile, h]

/-- Trimming whitespace never lengthens a string. -/
theorem jsTrim_length_le (s : String) : (jsTrim s).length ≤ s.length := by
  unfold jsTrim
  have h1 : (String.mk (((s.toList.dropWhile Char.isWhitespace).reverse.dropWhile
        Char.isWhitespace).reverse)).length
      = (((s.toList.dropWhile Char.isWhitespace).reverse.dropWhile
        Char.isWhitespace).reverse).length := rfl
  rw [h1, List.length_reverse]
  calc ((s.toList.dropWhile Char.isWhitespace).reverse.dropWhile Char.isWhitespace).length
      ≤ (s.toList.dropWhile Char.isWhitespace).reverse.length := dropWhile_length_le _ _
    _ = (s.toList.dropWhile Char.isWhitespace).length := List.length_reverse _
    _ ≤ s.toList.length := dropWhile_length_le _ _
    _ = s.length := rfl

/-- Claim C9: the agent end capture path submits zero ingest calls
whenever the concatenated extracted text is shorter than 50 characters,
or contains HEARTBEAT_OK or the pre-compaction flush marker, or is
shorter than 50 characters after removing every occurrence of
NO_REPLY. -/
theorem agentEnd_silent_filters (cfg : PluginConfig) (beh : ServiceBehaviour)
    (ev : AgentEndEvent)
    (h : (agentEndTotal cfg (ev.messages.getD [])).length < 50 ∨
      hasSubstr (agentEndTotal cfg (ev.messages.getD [])) "HEARTBEAT_OK" = true ∨
      hasSubstr (agentEndTotal cfg (ev.messages.getD [])) "Pre-compaction memory flush" = true ∨
      (jsReplace (agentEndTotal cfg (ev.messages.getD [])) "NO_REPLY" "").length < 50) :
    (agentEnd cfg beh ev).calls.countP ClientCall.isIngest = 0 := by
  rcases ev with ⟨s, ms⟩
  simp only [agentEnd]
  split
  · rfl
  · cases ms with
    | none => rfl
    | some msgs =>
      simp only [Option.getD] at h
      simp only
      split
      · rfl
      · rw [catchAll_calls]
        simp only [agentEndTry]
        split
        · rfl
        · split
          · rfl
          · split
            · rfl
            · split
              · rfl
              · split
                · rfl
                · exfalso
                  next h50 hmk htr =>
                    rcases h with hA | hB | hC | hD
                    · exact h50 hA
                    · exact hmk (by simp [hB])
                    · exact hmk (by simp [hC])
                    · exact htr (Nat.lt_of_le_of_lt (jsTrim_length_le _) hD)

/-- Configuration with the register defaults, used as concrete input. -/
def defaultCfg : PluginConfig := PluginConfig.mk 10 ["user", "assistant"] 10

/-- Healthy service behaviour, used as concrete input. -/
def healthyBeh : ServiceBehaviour :=
  ServiceBehaviour.mk true (Except.ok []) (Except.ok (IngestBody.mk true "queued")) "T"

/-- Event whose only extracted text is a long heartbeat line. -/
def heartbeatEvent : AgentEndEvent :=
  AgentEndEvent.mk true
    (some [EventMessage.obj "user"
      (MsgContent.str "HEARTBEAT_OK scheduled poll with plenty of additional characters present")])

/-- Witness for C9: a healthy service and a long batch containing
HEARTBEAT_OK still produce zero ingest calls. -/
theorem agentEnd_silent_filters_witness :
    hasSubstr (agentEndTotal defaultCfg (heartbeatEvent.messages.getD [])) "HEARTBEAT_OK" = true ∧
      (agentEnd defaultCfg healthyBeh heartbeatEvent).calls.countP ClientCall.isIngest = 0 :=
  ⟨by decide,
    agentEnd_silent_filters defaultCfg healthyBeh heartbeatEvent (Or.inr (Or.inl (by decide)))⟩

/-- Claim C10: every ingest call issued by the agent end capture path
carries exactly one message whose content is built from at most the last
10 extracted texts, each truncated to 2000 characters, joined with blank
lines and truncated to 12000 characters; earlier texts are omitted
entirely. -/
theorem agentEnd_last10_truncation (cfg : PluginConfig) (beh : ServiceBehaviour)
    (ev : AgentEndEvent) (msgs : List EventMessage) (hm : ev.messages = some msgs)
    (ms : List GraphitiMessage)
    (hms : ClientCall.ingestCall ms ∈ (agentEnd cfg beh ev).calls) :
    ((extractTexts cfg.captureRoles msgs).drop
        ((extractTexts cfg.captureRoles msgs).length - 10)).length ≤ 10 ∧
    ms = [GraphitiMessage.mk
        ((String.intercalate "\n\n"
            (((extractTexts cfg.captureRoles msgs).drop
                ((extractTexts cfg.captureRoles msgs).length - 10)).map
              (fun t => t.1 ++ ": " ++ t.2.take 2000))).take 12000)
        "user" "conversation" (some ("conversation-" ++ beh.now)) (some beh.now)
        (some "OpenClaw auto-capture: agent conversation")] := by
  constructor
  · rw [List.length_drop]
    omega
  · simp only [agentEnd, hm] at hms
    split at hms
    · simp at hms
    · split at hms
      · simp at hms
      · rw [catchAll_calls] at hms
        simp only [agentEndTry] at hms
        split at hms
        · simp at hms
        · split at hms
          · simp at hms
          · split at hms
            · simp at hms
            · split at hms
              · simp at hms
              · split at hms
                · simp at hms
                · split at hms <;>
                  · simp only [List.mem_cons, List.mem_singleton, List.not_mem_nil,
                      or_false, reduceCtorEq, false_or, ClientCall.ingestCall.injEq] at hms
                    rw [hms]
                    rfl

/-- Event with twelve extracted user texts, used as concrete input. -/
def twelveTurnEvent : AgentEndEvent :=
  AgentEndEvent.mk true (some (List.replicate 12 (EventMessage.obj "user"
    (MsgContent.str "0123456789"))))

/-- The twelve-entry message list of twelveTurnEvent. -/
def twelveTurnMsgs : List EventMessage :=
  List.replicate 12 (EventMessage.obj "user" (MsgContent.str "0123456789"))

/-- The single message the agent end capture path submits for
twelveTurnEvent. -/
def twelveTurnExpected : GraphitiMessage :=
  GraphitiMessage.mk (agentEndEpisodeContent (extractTexts defaultCfg.captureRoles twelveTurnMsgs))
    "user" "conversation" (some ("conversation-" ++ healthyBeh.now)) (some healthyBeh.now)
    (some "OpenClaw auto-capture: agent conversation")

set_option maxRecDepth 8192 in
/-- Witness for C10: on a batch of 12 ten-character turns, the single
ingest call contains exactly the last 10 flattened texts. -/
theorem agentEnd_last10_truncation_witness :
    twelveTurnEvent.messages = some twelveTurnMsgs ∧
      ClientCall.ingestCall [twelveTurnExpected] ∈
        (agentEnd defaultCfg healthyBeh twelveTurnEvent).calls ∧
      [twelveTurnExpected] = [GraphitiMessage.mk
        ((String.intercalate "\n\n"
            (((extractTexts defaultCfg.captureRoles twelveTurnMsgs).drop
                ((extractTexts defaultCfg.captureRoles twelveTurnMsgs).length - 10)).map
              (fun t => t.1 ++ ": " ++ t.2.take 2000))).take 12000)
        "user" "conversation" (some ("conversation-" ++ healthyBeh.now)) (some healthyBeh.now)
        (some "OpenClaw auto-capture: agent conversation")] := by
  have hcalls : (agentEnd defaultCfg healthyBeh twelveTurnEvent).calls =
      [ClientCall.healthCheck, ClientCall.ingestCall [twelveTurnExpected]] := rfl
  have hmem : ClientCall.ingestCall [twelveTurnExpected] ∈
      (agentEnd defaultCfg healthyBeh twelveTurnEvent).calls := by
    rw [hcalls]
    exact List.mem_cons_of_mem _ (List.mem_singleton.mpr rfl)
  exact ⟨rfl, hmem,
    (agentEnd_last10_truncation defaultCfg healthyBeh twelveTurnEvent twelveTurnMsgs rfl
      [twelveTurnExpected] hmem).2⟩

/-- Mapping a filter over a list never lengthens it. -/
theorem filterMap_length_le (f : α → Option β) (l : List α) :
    (l.filterMap f).length ≤ l.length := by
  induction l with
  | nil => simp
  | cons a l ih =>
    cases hf : f a with
    | none =>
      rw [List.filterMap_cons_none hf]
      exact Nat.le_succ_of_le ih
    | some b =>
      rw [List.filterMap_cons_some hf]
      simpa using ih

/-- Claim C8: on a healthy service, a reset-trigger event whose turn
list yields more than 20 eligible flattened lines produces exactly one
ingest call whose episode body is built from exactly the most recent 20
whole lines; all older lines are dropped. -/
theorem reset_window_last20 (beh : ServiceBehaviour) (ev : ResetEvent)
    (msgs : List EventMessage) (hm : ev.messages = some msgs)
    (hh : beh.healthyResult = true) (hl : 20 < (extractResetLines msgs).length) :
    ((extractResetLines msgs).drop ((extractResetLines msgs).length - 20)).length = 20 ∧
    (beforeReset beh ev).calls.countP ClientCall.isIngest = 1 ∧
    ClientCall.ingestCall [GraphitiMessage.mk
        ((String.intercalate "\n\n"
            ((extractResetLines msgs).drop ((extractResetLines msgs).length - 20))).take 12000)
        "user" "conversation" (some ("session-reset-" ++ beh.now)) (some beh.now)
        (some "OpenClaw auto-capture: session reset")]
      ∈ (beforeReset beh ev).calls := by
  have hle : (extractResetLines msgs).length ≤ msgs.length := by
    unfold extractResetLines
    exact filterMap_length_le _ _
  have h4 : ¬ msgs.length < 4 := by omega
  have h2 : ¬ (extractResetLines msgs).length < 2 := by omega
  have hfalse : (beh.healthyResult = false) = False := by simp [hh]
  have hcalls : (beforeReset beh ev).calls =
      [ClientCall.healthCheck, ClientCall.ingestCall
        [GraphitiMessage.mk (resetEpisodeContent (extractResetLines msgs)) "user" "conversation"
          (some ("session-reset-" ++ beh.now)) (some beh.now)
          (some "OpenClaw auto-capture: session reset")]] := by
    simp only [beforeReset, hm]
    rw [if_neg h4, catchAll_calls]
    simp only [beforeResetTry, hfalse, if_false]
    rw [if_neg h2]
    cases hing : beh.ingestResult <;> rfl
  refine ⟨?_, ?_, ?_⟩
  · rw [List.length_drop]
    omega
  · rw [hcalls]
    rfl
  · rw [hcalls]
    exact List.mem_cons_of_mem _ (List.mem_singleton.mpr rfl)

/-- Reset event carrying 25 eligible turns, used as concrete input. -/
def resetEvent25 : ResetEvent :=
  ResetEvent.mk (some (List.replicate 25 (EventMessage.obj "user"
    (MsgContent.str "aaaaaaaaaaaaaaaaaaaaa"))))

/-- The 25-entry message list of resetEvent25. -/
def resetMsgs25 : List EventMessage :=
  List.replicate 25 (EventMessage.obj "user" (MsgContent.str "aaaaaaaaaaaaaaaaaaaaa"))

set_option maxRecDepth 8192 in
/-- Witness for C8: 25 eligible turns at the reset trigger give one
ingest call built from exactly the last 20 lines. -/
theorem reset_window_last20_witness :
    resetEvent25.messages = some resetMsgs25 ∧
      healthyBeh.healthyResult = true ∧
      20 < (extractResetLines resetMsgs25).length ∧
      (((extractResetLines resetMsgs25).drop
          ((extractResetLines resetMsgs25).length - 20)).length = 20 ∧
        (beforeReset healthyBeh resetEvent25).calls.countP ClientCall.isIngest = 1 ∧
        ClientCall.ingestCall [GraphitiMessage.mk
            ((String.intercalate "\n\n"
                ((extractResetLines resetMsgs25).drop
                  ((extractResetLines resetMsgs25).length - 20))).take 12000)
            "user" "conversation" (some ("session-reset-" ++ healthyBeh.now))
            (some healthyBeh.now) (some "OpenClaw auto-capture: session reset")]
          ∈ (beforeReset healthyBeh resetEvent25).calls) :=
  ⟨rfl, rfl, by decide,
    reset_window_last20 healthyBeh resetEvent25 resetMsgs25 rfl rfl (by decide)⟩

/-- Two-turn message list with substantial content, used as concrete
input. -/
def twoTurnMsgs : List EventMessage :=
  [EventMessage.obj "user"
      (MsgContent.str "Please summarise the deployment plan for the graphiti service."),
    EventMessage.obj "assistant"
      (MsgContent.str "The plan is to deploy the graphiti server behind the proxy.")]

/-- Agent end event carrying the two-turn batch. -/
def twoTurnEvent : AgentEndEvent := AgentEndEvent.mk true (some twoTurnMsgs)

set_option maxRecDepth 8192 in
/-- Counterexample for C7: the agent end capture trigger has no
four-turn floor, so a two-turn batch with substantial content still
produces an ingest call, refuting the claim that every capture trigger
submits zero ingest calls below four turns. -/
theorem capture_floor_counterexample :
    twoTurnMsgs.length = 2 ∧
      twoTurnEvent.messages = some twoTurnMsgs ∧
      (agentEnd defaultCfg healthyBeh twoTurnEvent).calls.countP ClientCall.isIngest = 1 :=
  ⟨rfl, rfl, by decide⟩

/-- Claim C7 amended: for the reset trigger, an event whose turn list
contains fewer than four turns (or none at all) submits zero ingest
calls, regardless of content, roles or service health. -/
theorem reset_floor_no_ingest (beh : ServiceBehaviour) (msgs : List EventMessage)
    (h : msgs.length < 4) :
    (beforeReset beh (ResetEvent.mk (some msgs))).calls.countP ClientCall.isIngest = 0 ∧
    (beforeReset beh (ResetEvent.mk none)).calls.countP ClientCall.isIngest = 0 := by
  constructor
  · simp only [beforeReset]
    rw [if_pos h]
    rfl
  · rfl

/-- Witness for C7 amended: the two-turn batch at the reset trigger
yields zero ingest calls even on a healthy service. -/
theorem reset_floor_no_ingest_witness :
    twoTurnMsgs.length < 4 ∧
      ((beforeReset healthyBeh (ResetEvent.mk (some twoTurnMsgs))).calls.countP
          ClientCall.isIngest = 0 ∧
        (beforeReset healthyBeh (ResetEvent.mk none)).calls.countP ClientCall.isIngest = 0) :=
  ⟨by decide, reset_floor_no_ingest healthyBeh twoTurnMsgs (by decide)⟩

end Graphiti
